import Mathlib

/-!
Verification of the ha-nadtcp Home Assistant integration for NAD amplifiers.

The repository holds two variants of the integration:
* `src/components/media_player/nadtcp2.py` — "variant 1": keeps raw device
  state (`_power`, `_muted`, `_volume`, `_source`) updated by
  `message_received(key, value)`, guards every command with `is_connected()`,
  and contains the `connect`/`reconnect` closures in `async_added_to_hass`.
* `src/components/nadtcp2/media_player.py` — "variant 2": stores a normalized
  volume, converts with `nad_vol_to_internal_vol` / `internal_vol_to_nad_vol`,
  and steps the volume by `volume_step * 0.5` without clamping.

Python `float` arithmetic is modelled over exact rationals `ℚ`, device-native
volumes, bounds and steps over `ℤ`, and Python 3 `round` (banker's rounding,
round-half-to-even) as `pyRound : ℚ → ℤ`.
-/

namespace NADTCP

/-! ## Volume conversion (both variants) -/

/-- Python 3 `round` on a rational: nearest integer, ties to the even one
(banker's rounding). `int(round(x))` in the source is the identity on the
resulting integer, so it is also modelled by `pyRound`. -/
def pyRound (q : ℚ) : ℤ :=
  let f := ⌊q⌋
  let r := q - (f : ℚ)
  if r < 1/2 then f
  else if 1/2 < r then f + 1
  else if 2 ∣ f then f else f + 1

/-- `NADDevice.nad_vol_to_internal_vol` (identical in both variants):
`None ↦ 0.0`, values below `min_vol ↦ 0.0`, above `max_vol ↦ 1.0`, otherwise
`(nad_vol - min_vol) / (max_vol - min_vol)`. -/
def nad_vol_to_internal_vol (min_vol max_vol : ℤ) : Option ℤ → ℚ
  | none => 0
  | some nad_vol =>
    if nad_vol < min_vol then 0
    else if max_vol < nad_vol then 1
    else ((nad_vol : ℚ) - (min_vol : ℚ)) / ((max_vol : ℚ) - (min_vol : ℚ))

/-- `NADDevice.internal_vol_to_nad_vol` (variant 2, lines 102–103):
`int(round(internal_vol * (max_vol - min_vol) + min_vol))`. Variant 1's
`async_set_volume_level` (lines 196–203) computes the same expression for the
outbound absolute volume set. -/
def internal_vol_to_nad_vol (min_vol max_vol : ℤ) (internal_vol : ℚ) : ℤ :=
  pyRound (internal_vol * ((max_vol : ℚ) - (min_vol : ℚ)) + (min_vol : ℚ))

/-- The value variant 2's `async_volume_up` passes to `self._client.set_volume`:
`internal_vol_to_nad_vol(self.volume_level) + self._volume_step * 0.5`
(a Python float, hence `ℚ` here). -/
def async_volume_up_arg (min_vol max_vol volume_step : ℤ) (volume_level : ℚ) : ℚ :=
  ((internal_vol_to_nad_vol min_vol max_vol volume_level : ℤ) : ℚ)
    + (volume_step : ℚ) * (1/2)

/-- The value variant 2's `async_volume_down` passes to `set_volume`:
`internal_vol_to_nad_vol(self.volume_level) - self._volume_step * 0.5`. -/
def async_volume_down_arg (min_vol max_vol volume_step : ℤ) (volume_level : ℚ) : ℚ :=
  ((internal_vol_to_nad_vol min_vol max_vol volume_level : ℤ) : ℚ)
    - (volume_step : ℚ) * (1/2)

/-- The calls variant 2's `async_volume_up` makes on the nadtcp client:
exactly one `set_volume` with the computed absolute value. -/
inductive ClientCall
  | set_volume (v : ℚ)
  | power_on
  | power_off
  | do_mute
  | do_unmute
  | sel_source (s : String)
deriving DecidableEq

/-- Variant 2, `async_volume_up` (line 155): a single absolute
`set_volume` call. -/
def async_volume_up_calls (min_vol max_vol volume_step : ℤ) (volume_level : ℚ) :
    List ClientCall :=
  [ClientCall.set_volume (async_volume_up_arg min_vol max_vol volume_step volume_level)]

/-- Variant 2, `async_volume_down` (line 159): a single absolute
`set_volume` call. -/
def async_volume_down_calls (min_vol max_vol volume_step : ℤ) (volume_level : ℚ) :
    List ClientCall :=
  [ClientCall.set_volume (async_volume_down_arg min_vol max_vol volume_step volume_level)]

/-! ## Variant 1 device handler -/

/-- A raw protocol value as stored by variant 1's `message_received`:
the library's `MSG_ON` / `MSG_OFF` tokens, integers (volume), or
strings (source names). -/
inductive NADValue
  | msgOn
  | msgOff
  | intVal (n : ℤ)
  | strVal (s : String)
deriving DecidableEq

/-- Wire keys of the `Main` zone. Modelled from the spec: the outbound line
format is `<ZONE>.<KEY>=<VALUE>` with fixed zone `Main`; the literals agree
with the keys variant 1's `message_received` compares against. These stand for
the nadtcp library's `MSG_POWER` … constants, which are not under `src/`. -/
def MSG_POWER : String := "Main.Power"

/-- Wire key for the main-zone volume. -/
def MSG_VOLUME : String := "Main.Volume"

/-- Wire key for the main-zone mute flag. -/
def MSG_MUTE : String := "Main.Mute"

/-- Wire key for the main-zone source. -/
def MSG_SOURCE : String := "Main.Source"

/-- Aggregate query key (`get_value(MSG_MAIN)` asks the device to report all
main-zone values). -/
def MSG_MAIN : String := "Main"

/-- Variant 1 `NADDevice` state: `_protocol is not None` (connection flag) and
the four device-state fields set in `__init__` (lines 82–85), all `None`
until the first inbound update. -/
structure Device1 where
  connected : Bool
  power : Option NADValue
  muted : Option NADValue
  volume : Option NADValue
  source : Option NADValue
deriving DecidableEq

/-- `NADDevice.__init__` (variant 1, lines 72–85): no protocol yet and every
device-state field `None`. -/
def device1Init : Device1 :=
  { connected := false, power := none, muted := none, volume := none, source := none }

/-- A call made on the nadtcp protocol object by variant 1's command methods. -/
inductive ProtocolCall
  | set_value (key : String) (value : NADValue)
  | cycle_up (key : String)
  | cycle_down (key : String)
  | get_value (key : String)
deriving DecidableEq

/-- Variant 1 `NADDevice.message_received` (lines 110–121): dispatch on the
key, overwrite the matching field, then fire one `async_update_ha_state`
notification (the returned `ℕ` counts notifications). -/
def message_received (key : String) (value : NADValue) (s : Device1) : Device1 × ℕ :=
  let s' :=
    if key = MSG_VOLUME then { s with volume := some value }
    else if key = MSG_POWER then { s with power := some value }
    else if key = MSG_MUTE then { s with muted := some value }
    else if key = MSG_SOURCE then { s with source := some value }
    else s
  (s', 1)

/-- Variant 1 `NADDevice.set_protocol`: record whether a protocol object is
attached. -/
def set_protocol (connected : Bool) (s : Device1) : Device1 :=
  { s with connected := connected }

/-- Variant 1 `async_turn_off` (lines 172–176). -/
def async_turn_off (s : Device1) : Device1 × List ProtocolCall :=
  if s.connected then (s, [ProtocolCall.set_value MSG_POWER NADValue.msgOff])
  else (s, [])

/-- Variant 1 `async_turn_on` (lines 178–182). -/
def async_turn_on (s : Device1) : Device1 × List ProtocolCall :=
  if s.connected then (s, [ProtocolCall.set_value MSG_POWER NADValue.msgOn])
  else (s, [])

/-- Variant 1 `async_volume_up` (lines 184–188): delegates to the library's
`cycle_up`. -/
def async_volume_up (s : Device1) : Device1 × List ProtocolCall :=
  if s.connected then (s, [ProtocolCall.cycle_up MSG_VOLUME])
  else (s, [])

/-- Variant 1 `async_volume_down` (lines 190–194). -/
def async_volume_down (s : Device1) : Device1 × List ProtocolCall :=
  if s.connected then (s, [ProtocolCall.cycle_down MSG_VOLUME])
  else (s, [])

/-- Variant 1 `async_set_volume_level` (lines 196–203): convert the normalized
level with `int(round(volume * (max_vol - min_vol) + min_vol))` and issue one
absolute set. -/
def async_set_volume_level (min_vol max_vol : ℤ) (volume : ℚ) (s : Device1) :
    Device1 × List ProtocolCall :=
  if s.connected then
    (s, [ProtocolCall.set_value MSG_VOLUME
          (NADValue.intVal (internal_vol_to_nad_vol min_vol max_vol volume))])
  else (s, [])

/-- Variant 1 `async_mute_volume` (lines 205–212). -/
def async_mute_volume (mute : Bool) (s : Device1) : Device1 × List ProtocolCall :=
  if s.connected then
    if mute then (s, [ProtocolCall.set_value MSG_MUTE NADValue.msgOn])
    else (s, [ProtocolCall.set_value MSG_MUTE NADValue.msgOff])
  else (s, [])

/-- Variant 1 `async_select_source` (lines 214–218): guarded by
`is_connected()`; the `Except` result records that the method returns normally
(never raises) on both branches. -/
def async_select_source (source : String) (s : Device1) :
    Except String (Device1 × List ProtocolCall) :=
  if s.connected then
    Except.ok (s, [ProtocolCall.set_value MSG_SOURCE (NADValue.strVal source)])
  else Except.ok (s, [])

/-- Variant 1 `async_update` (lines 220–224). -/
def async_update (s : Device1) : Device1 × List ProtocolCall :=
  if s.connected then (s, [ProtocolCall.get_value MSG_MAIN])
  else (s, [])

/-- The operations that touch a variant 1 `NADDevice`: inbound parsed updates,
the semantic command methods, and protocol attach/detach. -/
inductive Op1
  | msg_received (key : String) (value : NADValue)
  | turn_on
  | turn_off
  | volume_up
  | volume_down
  | set_volume_level (v : ℚ)
  | mute_volume (m : Bool)
  | sel_source (src : String)
  | query_update
  | protocol_attach (connected : Bool)

/-- One step of the variant 1 device handler, dispatching to the method the
operation names. -/
def step1 (min_vol max_vol : ℤ) : Op1 → Device1 → Device1 × List ProtocolCall
  | Op1.msg_received key value, s => ((message_received key value s).1, [])
  | Op1.turn_on, s => async_turn_on s
  | Op1.turn_off, s => async_turn_off s
  | Op1.volume_up, s => async_volume_up s
  | Op1.volume_down, s => async_volume_down s
  | Op1.set_volume_level v, s => async_set_volume_level min_vol max_vol v s
  | Op1.mute_volume m, s => async_mute_volume m s
  | Op1.sel_source src, s =>
      match async_select_source src s with
      | Except.ok r => r
      | Except.error _ => (s, [])
  | Op1.query_update, s => async_update s
  | Op1.protocol_attach c, s => (set_protocol c s, [])

/-- Run a list of operations on a variant 1 device. -/
def run1 (min_vol max_vol : ℤ) (ops : List Op1) (s : Device1) : Device1 :=
  ops.foldl (fun st op => (step1 min_vol max_vol op st).1) s

/-- The DeviceState fields alone (power, muted, volume, source), without the
connection flag. -/
structure Fields where
  power : Option NADValue
  muted : Option NADValue
  volume : Option NADValue
  source : Option NADValue
deriving DecidableEq

/-- Project a variant 1 device onto its DeviceState fields. -/
def Device1.fields (s : Device1) : Fields :=
  { power := s.power, muted := s.muted, volume := s.volume, source := s.source }

/-- The field effect of one parsed inbound update, as `message_received`
dispatches it. -/
def updateFields (key : String) (value : NADValue) (f : Fields) : Fields :=
  if key = MSG_VOLUME then { f with volume := some value }
  else if key = MSG_POWER then { f with power := some value }
  else if key = MSG_MUTE then { f with muted := some value }
  else if key = MSG_SOURCE then { f with source := some value }
  else f

/-- Keep only the parsed inbound state updates of an operation list. -/
def updatesOf (ops : List Op1) : List (String × NADValue) :=
  ops.filterMap fun op =>
    match op with
    | Op1.msg_received k v => some (k, v)
    | _ => none

/-- Apply a list of parsed updates to the DeviceState fields. -/
def runUpdates (us : List (String × NADValue)) (f : Fields) : Fields :=
  us.foldl (fun f kv => updateFields kv.1 kv.2 f) f

/-! ## Variant 1 connection management (`async_added_to_hass`, lines 226–271) -/

/-- How a connection attempt ends: success, or one of the exception classes the
`try`/`except` in `connect` catches (lines 253–254). -/
inductive ConnectOutcome
  | success
  | connection_refused
  | timeout_error
  | os_error
  | asyncio_timeout
deriving DecidableEq

/-- What one call of the `connect` coroutine does, as observed by its caller:
whether an exception propagates out, the delays of the `loop.call_later`
timers it arms to schedule `reconnect`, and whether a protocol got attached. -/
structure ConnectResult where
  raised : Option ConnectOutcome
  retry_delays : List ℕ
  protocol_set : Bool
deriving DecidableEq

/-- Variant 1 `connect` (lines 240–268): on any caught connection error it
logs, arms a single `call_later(self._reconnect_interval, reconnect, exc)`
timer and returns; on success it attaches the protocol and schedules a state
query. No exception escapes. -/
def connect (reconnect_interval : ℕ) (outcome : ConnectOutcome) : ConnectResult :=
  match outcome with
  | ConnectOutcome.success =>
      { raised := none, retry_delays := [], protocol_set := true }
  | _ =>
      { raised := none, retry_delays := [reconnect_interval], protocol_set := false }

/-- The host application's core lifecycle state (`homeassistant.core.CoreState`),
as far as `reconnect` inspects it. -/
inductive HassCoreState
  | not_running
  | starting
  | running
  | stopping
deriving DecidableEq

/-- Variant 1 `reconnect` (lines 228–233): drop the protocol, then schedule a
new `connect` job only when the host is not stopping. The `Bool` records
whether a connect job was scheduled. -/
def reconnect (hass_state : HassCoreState) (s : Device1) : Device1 × Bool :=
  let s' := set_protocol false s
  if hass_state ≠ HassCoreState.stopping then (s', true) else (s', false)

/-- Run a sequence of disconnect events, each invoking `reconnect` under the
host core state current at that moment; count the connect jobs scheduled. -/
def runDisconnects : List HassCoreState → Device1 → Device1 × ℕ
  | [], s => (s, 0)
  | st :: rest, s =>
      let r := reconnect st s
      let rec' := runDisconnects rest r.1
      (rec'.1, (if r.2 then 1 else 0) + rec'.2)

/-! ## Theorems: Python round -/

theorem floor_le_pyRound (q : ℚ) : ⌊q⌋ ≤ pyRound q := by
  unfold pyRound
  dsimp only
  split_ifs <;> omega

theorem le_pyRound (n : ℤ) (q : ℚ) (h : (n : ℚ) ≤ q) : n ≤ pyRound q :=
  le_trans (Int.le_floor.mpr h) (floor_le_pyRound q)

theorem pyRound_le (n : ℤ) (q : ℚ) (h : q ≤ (n : ℚ)) : pyRound q ≤ n := by
  have hfl : ⌊q⌋ ≤ n := by
    have := Int.floor_le_floor h
    simpa using this
  unfold pyRound
  dsimp only
  split_ifs with h1 h2 h3
  · exact hfl
  · -- strictly past the midpoint: (⌊q⌋ : ℚ) < q, hence ⌊q⌋ < n
    have hlt : (⌊q⌋ : ℚ) < q := by
      have : (1:ℚ)/2 < q - (⌊q⌋ : ℚ) := h2
      linarith
    have : ⌊q⌋ < n := by
      by_contra hc
      push_neg at hc
      have : (n : ℚ) ≤ (⌊q⌋ : ℚ) := by exact_mod_cast hc
      have hq : q ≤ (⌊q⌋ : ℚ) := le_trans h this
      linarith
    omega
  · exact hfl
  · -- exactly at the midpoint: (⌊q⌋ : ℚ) < q, hence ⌊q⌋ < n
    have hmid : q - (⌊q⌋ : ℚ) = 1/2 := le_antisymm (not_lt.mp h2) (not_lt.mp h1)
    have hlt : (⌊q⌋ : ℚ) < q := by linarith
    have : ⌊q⌋ < n := by
      by_contra hc
      push_neg at hc
      have : (n : ℚ) ≤ (⌊q⌋ : ℚ) := by exact_mod_cast hc
      have hq : q ≤ (⌊q⌋ : ℚ) := le_trans h this
      linarith
    omega

theorem pyRound_intCast (n : ℤ) : pyRound (n : ℚ) = n := by
  unfold pyRound
  dsimp only
  rw [Int.floor_intCast]
  norm_num

/-! ## Theorems: volume conversion -/

theorem bounds_cast_ne_zero (min_vol max_vol : ℤ) (h : min_vol < max_vol) :
    ((max_vol : ℚ) - (min_vol : ℚ)) ≠ 0 := by
  have hlt : (min_vol : ℚ) < (max_vol : ℚ) := by exact_mod_cast h
  exact sub_ne_zero_of_ne (ne_of_gt hlt)

theorem internal_nad_roundtrip (min_vol max_vol v : ℤ)
    (h1 : min_vol < max_vol) (h2 : min_vol ≤ v) (h3 : v ≤ max_vol) :
    internal_vol_to_nad_vol min_vol max_vol
      (nad_vol_to_internal_vol min_vol max_vol (some v)) = v := by
  have hne := bounds_cast_ne_zero min_vol max_vol h1
  simp only [nad_vol_to_internal_vol, internal_vol_to_nad_vol]
  rw [if_neg (not_lt.mpr h2), if_neg (not_lt.mpr h3)]
  rw [div_mul_cancel₀ _ hne, sub_add_cancel]
  exact pyRound_intCast v

/-- C8: the conversion is the linear map between device-native units and the
normalized 0..1 scale: `nad_vol_to_internal_vol` sends `min_vol` to 0,
`max_vol` to 1, integers in between to `(v - min_vol)/(max_vol - min_vol)`,
and out-of-range values to the boundary; converting a normalized `v ∈ [0,1]`
for an outbound set yields `round(v * (max_vol - min_vol) + min_vol)`, which
lies in `[min_vol, max_vol]`. -/
theorem volume_conversion_linear (min_vol max_vol : ℤ) (h : min_vol < max_vol) :
    nad_vol_to_internal_vol min_vol max_vol (some min_vol) = 0
  ∧ nad_vol_to_internal_vol min_vol max_vol (some max_vol) = 1
  ∧ (∀ v : ℤ, min_vol ≤ v → v ≤ max_vol →
      nad_vol_to_internal_vol min_vol max_vol (some v)
        = ((v : ℚ) - (min_vol : ℚ)) / ((max_vol : ℚ) - (min_vol : ℚ)))
  ∧ (∀ v : ℤ, v < min_vol → nad_vol_to_internal_vol min_vol max_vol (some v) = 0)
  ∧ (∀ v : ℤ, max_vol < v → nad_vol_to_internal_vol min_vol max_vol (some v) = 1)
  ∧ (∀ v : ℚ, 0 ≤ v → v ≤ 1 →
      internal_vol_to_nad_vol min_vol max_vol v
          = pyRound (v * ((max_vol : ℚ) - (min_vol : ℚ)) + (min_vol : ℚ))
      ∧ min_vol ≤ internal_vol_to_nad_vol min_vol max_vol v
      ∧ internal_vol_to_nad_vol min_vol max_vol v ≤ max_vol) := by
  have hne := bounds_cast_ne_zero min_vol max_vol h
  have hlt : (min_vol : ℚ) < (max_vol : ℚ) := by exact_mod_cast h
  refine ⟨?_, ?_, ?_, ?_, ?_, ?_⟩
  · simp only [nad_vol_to_internal_vol]
    rw [if_neg (lt_irrefl min_vol), if_neg (not_lt.mpr h.le)]
    rw [sub_self, zero_div]
  · simp only [nad_vol_to_internal_vol]
    rw [if_neg (not_lt.mpr h.le), if_neg (lt_irrefl max_vol)]
    exact div_self hne
  · intro v h2 h3
    simp only [nad_vol_to_internal_vol]
    rw [if_neg (not_lt.mpr h2), if_neg (not_lt.mpr h3)]
  · intro v hv
    simp only [nad_vol_to_internal_vol]
    rw [if_pos hv]
  · intro v hv
    have : ¬ v < min_vol := not_lt.mpr (le_of_lt (lt_trans h hv))
    simp only [nad_vol_to_internal_vol]
    rw [if_neg this, if_pos hv]
  · intro v hv0 hv1
    refine ⟨rfl, ?_, ?_⟩
    · apply le_pyRound
      have hmul : 0 ≤ v * ((max_vol : ℚ) - (min_vol : ℚ)) :=
        mul_nonneg hv0 (by linarith)
      linarith
    · apply pyRound_le
      have hmul : v * ((max_vol : ℚ) - (min_vol : ℚ))
          ≤ (max_vol : ℚ) - (min_vol : ℚ) :=
        mul_le_of_le_one_left (by linarith) hv1
      linarith

theorem volume_conversion_linear_witness :
    (-80 : ℤ) < -10 ∧ nad_vol_to_internal_vol (-80) (-10) (some (-80)) = 0 :=
  ⟨by decide, (volume_conversion_linear (-80) (-10) (by decide)).1⟩

/-- C9: for `None` and for any integer input, under `min_vol < max_vol`,
`nad_vol_to_internal_vol` is total and returns a value in `[0, 1]`: the
guards make the division's denominator nonzero and send `None` and
out-of-range inputs to the boundary values. -/
theorem nad_vol_bounds (min_vol max_vol : ℤ) (v : Option ℤ) (h : min_vol < max_vol) :
    0 ≤ nad_vol_to_internal_vol min_vol max_vol v
  ∧ nad_vol_to_internal_vol min_vol max_vol v ≤ 1 := by
  cases v with
  | none => simp [nad_vol_to_internal_vol]
  | some n =>
    simp only [nad_vol_to_internal_vol]
    split_ifs with h1 h2
    · norm_num
    · norm_num
    · push_neg at h1 h2
      have hlt : (min_vol : ℚ) < (max_vol : ℚ) := by exact_mod_cast h
      have hn1 : (min_vol : ℚ) ≤ (n : ℚ) := by exact_mod_cast h1
      have hn2 : (n : ℚ) ≤ (max_vol : ℚ) := by exact_mod_cast h2
      constructor
      · apply div_nonneg <;> linarith
      · rw [div_le_one (by linarith)]
        linarith

theorem nad_vol_bounds_witness :
    0 ≤ nad_vol_to_internal_vol (-80) (-10) (some (-50))
  ∧ nad_vol_to_internal_vol (-80) (-10) (some (-50)) ≤ 1 :=
  nad_vol_bounds (-80) (-10) (some (-50)) (by decide)

/-- C10: over exact rationals, converting a device-native volume inside the
configured bounds to the normalized scale and back
(`internal_vol_to_nad_vol ∘ nad_vol_to_internal_vol`) returns it exactly. -/
theorem volume_roundtrip (min_vol max_vol v : ℤ)
    (h1 : min_vol < max_vol) (h2 : min_vol ≤ v) (h3 : v ≤ max_vol) :
    internal_vol_to_nad_vol min_vol max_vol
      (nad_vol_to_internal_vol min_vol max_vol (some v)) = v :=
  internal_nad_roundtrip min_vol max_vol v h1 h2 h3

theorem volume_roundtrip_witness :
    internal_vol_to_nad_vol (-80) (-10)
      (nad_vol_to_internal_vol (-80) (-10) (some (-50))) = -50 :=
  volume_roundtrip (-80) (-10) (-50) (by decide) (by decide) (by decide)

/-! ## Theorems: volume stepping (variant 2) -/

/-- C1 fails as stated: with `min_vol = -80`, `max_vol = -10`,
`volume_step = 4` and last known device-native volume `-50`,
`async_volume_up` passes `-48` to `set_volume`, not `-50 + 4 = -46` — the code
adds `volume_step * 0.5`, not the full step. -/
theorem volume_step_counterexample :
    async_volume_up_arg (-80) (-10) 4
        (nad_vol_to_internal_vol (-80) (-10) (some (-50)))
      ≠ ((-50 : ℚ) + 4) := by
  norm_num [async_volume_up_arg, internal_vol_to_nad_vol,
    nad_vol_to_internal_vol, pyRound]

/-- C1 amended: when the last known volume was received as a device-native
value `v` within the configured bounds, `async_volume_up` / `async_volume_down`
issue a single absolute `set_volume` whose value is `v` plus (resp. minus)
half the configured step, `volume_step * 0.5`. -/
theorem volume_step_half (min_vol max_vol volume_step v : ℤ)
    (h1 : min_vol < max_vol) (h2 : min_vol ≤ v) (h3 : v ≤ max_vol) :
    async_volume_up_calls min_vol max_vol volume_step
        (nad_vol_to_internal_vol min_vol max_vol (some v))
      = [ClientCall.set_volume ((v : ℚ) + (volume_step : ℚ) * (1/2))]
  ∧ async_volume_down_calls min_vol max_vol volume_step
        (nad_vol_to_internal_vol min_vol max_vol (some v))
      = [ClientCall.set_volume ((v : ℚ) - (volume_step : ℚ) * (1/2))] := by
  unfold async_volume_up_calls async_volume_down_calls
    async_volume_up_arg async_volume_down_arg
  rw [internal_nad_roundtrip min_vol max_vol v h1 h2 h3]
  exact ⟨rfl, rfl⟩

theorem volume_step_half_witness :
    async_volume_up_calls (-80) (-10) 4
        (nad_vol_to_internal_vol (-80) (-10) (some (-50)))
      = [ClientCall.set_volume (-48)] := by
  have h := volume_step_half (-80) (-10) 4 (-50) (by decide) (by decide) (by decide)
  rw [h.1]
  norm_num

/-- C2 fails as stated: with `min_vol = -80`, `max_vol = -10`,
`volume_step = 4` and the last known volume at the configured maximum `-10`,
`async_volume_up` passes `-8` to `set_volume`, which exceeds the maximum —
no clamp is applied. -/
theorem volume_up_at_max_counterexample :
    ¬ async_volume_up_arg (-80) (-10) 4
        (nad_vol_to_internal_vol (-80) (-10) (some (-10)))
      ≤ ((-10 : ℤ) : ℚ) := by
  norm_num [async_volume_up_arg, internal_vol_to_nad_vol,
    nad_vol_to_internal_vol, pyRound]

/-- C2 amended: when the last known volume equals the configured maximum,
`async_volume_up` issues an absolute set of `max_vol + volume_step * 0.5`,
which strictly exceeds the configured maximum whenever `volume_step > 0`. -/
theorem volume_up_at_max_exceeds (min_vol max_vol volume_step : ℤ)
    (h1 : min_vol < max_vol) (h2 : 0 < volume_step) :
    async_volume_up_arg min_vol max_vol volume_step
        (nad_vol_to_internal_vol min_vol max_vol (some max_vol))
      = (max_vol : ℚ) + (volume_step : ℚ) * (1/2)
  ∧ (max_vol : ℚ) < async_volume_up_arg min_vol max_vol volume_step
        (nad_vol_to_internal_vol min_vol max_vol (some max_vol)) := by
  have heq : async_volume_up_arg min_vol max_vol volume_step
      (nad_vol_to_internal_vol min_vol max_vol (some max_vol))
      = (max_vol : ℚ) + (volume_step : ℚ) * (1/2) := by
    unfold async_volume_up_arg
    rw [internal_nad_roundtrip min_vol max_vol max_vol h1 h1.le le_rfl]
  refine ⟨heq, ?_⟩
  rw [heq]
  have hpos : (0 : ℚ) < (volume_step : ℚ) := by exact_mod_cast h2
  linarith

theorem volume_up_at_max_exceeds_witness :
    ((-10 : ℤ) : ℚ) < async_volume_up_arg (-80) (-10) 4
        (nad_vol_to_internal_vol (-80) (-10) (some (-10))) :=
  (volume_up_at_max_exceeds (-80) (-10) 4 (by decide) (by decide)).2

/-! ## Theorems: variant 1 device handler -/

/-- C3: selecting a source while the device is disconnected is a no-op — the
`is_connected()` guard makes `async_select_source` send nothing, raise no
exception, and leave the device state unchanged. -/
theorem select_source_disconnected_noop (source : String) (s : Device1)
    (h : s.connected = false) :
    async_select_source source s = Except.ok (s, []) := by
  simp [async_select_source, h]

theorem select_source_disconnected_noop_witness :
    async_select_source "Video" device1Init = Except.ok (device1Init, []) :=
  select_source_disconnected_noop "Video" device1Init rfl

/-- C4: an inbound update carrying only the power key sets the power field to
the received value, leaves volume, mute and source at their prior values, and
fires exactly one state-changed notification. -/
theorem power_update_frame (s : Device1) (v : NADValue) :
    (message_received MSG_POWER v s).1.power = some v
  ∧ (message_received MSG_POWER v s).1.volume = s.volume
  ∧ (message_received MSG_POWER v s).1.muted = s.muted
  ∧ (message_received MSG_POWER v s).1.source = s.source
  ∧ (message_received MSG_POWER v s).2 = 1 := by
  have hvol : (MSG_POWER = MSG_VOLUME) = False := by
    simp [MSG_POWER, MSG_VOLUME]
  simp [message_received, hvol]

/-- C5: a connection attempt that fails with timeout, refusal or an OS-level
socket error returns normally from `connect` (no exception propagates) and
arms exactly one retry timer with exactly the configured reconnect interval. -/
theorem connect_failure_schedules_single_retry (interval : ℕ)
    (outcome : ConnectOutcome) (h : outcome ≠ ConnectOutcome.success) :
    (connect interval outcome).raised = none
  ∧ (connect interval outcome).retry_delays = [interval] := by
  cases outcome with
  | success => exact absurd rfl h
  | connection_refused => exact ⟨rfl, rfl⟩
  | timeout_error => exact ⟨rfl, rfl⟩
  | os_error => exact ⟨rfl, rfl⟩
  | asyncio_timeout => exact ⟨rfl, rfl⟩

theorem connect_failure_schedules_single_retry_witness :
    (connect 10 ConnectOutcome.connection_refused).raised = none
  ∧ (connect 10 ConnectOutcome.connection_refused).retry_delays = [10] :=
  connect_failure_schedules_single_retry 10 ConnectOutcome.connection_refused
    (by decide)

/-- C6: while the host application is stopping, `reconnect` never schedules a
connect job, so a run of disconnect events during shutdown makes no further
connection attempt. -/
theorem shutdown_suppresses_reconnect (events : List HassCoreState) (s : Device1)
    (h : ∀ st ∈ events, st = HassCoreState.stopping) :
    (runDisconnects events s).2 = 0 := by
  induction events generalizing s with
  | nil => rfl
  | cons st rest ih =>
    have hst : st = HassCoreState.stopping := h st (List.mem_cons_self st rest)
    have hrest : ∀ x ∈ rest, x = HassCoreState.stopping :=
      fun x hx => h x (List.mem_cons_of_mem st hx)
    simp only [runDisconnects, hst, reconnect]
    rw [if_neg (by simp)]
    simpa using ih (set_protocol false s) hrest

theorem shutdown_suppresses_reconnect_witness :
    (runDisconnects [HassCoreState.stopping, HassCoreState.stopping]
      device1Init).2 = 0 :=
  shutdown_suppresses_reconnect
    [HassCoreState.stopping, HassCoreState.stopping] device1Init (by decide)

theorem step1_fields_eq (min_vol max_vol : ℤ) (op : Op1) (s : Device1) :
    (step1 min_vol max_vol op s).1.fields
      = runUpdates (updatesOf [op]) s.fields := by
  cases op with
  | msg_received k v =>
    show (message_received k v s).1.fields = updateFields k v s.fields
    simp only [message_received, updateFields, Device1.fields]
    split_ifs <;> rfl
  | turn_on =>
    show (async_turn_on s).1.fields = s.fields
    unfold async_turn_on
    split_ifs <;> rfl
  | turn_off =>
    show (async_turn_off s).1.fields = s.fields
    unfold async_turn_off
    split_ifs <;> rfl
  | volume_up =>
    show (async_volume_up s).1.fields = s.fields
    unfold async_volume_up
    split_ifs <;> rfl
  | volume_down =>
    show (async_volume_down s).1.fields = s.fields
    unfold async_volume_down
    split_ifs <;> rfl
  | set_volume_level v =>
    show (async_set_volume_level min_vol max_vol v s).1.fields = s.fields
    unfold async_set_volume_level
    split_ifs <;> rfl
  | mute_volume m =>
    show (async_mute_volume m s).1.fields = s.fields
    unfold async_mute_volume
    split_ifs <;> rfl
  | sel_source src =>
    show (match async_select_source src s with
      | Except.ok r => r
      | Except.error _ => (s, [])).1.fields = s.fields
    unfold async_select_source
    split_ifs <;> rfl
  | query_update =>
    show (async_update s).1.fields = s.fields
    unfold async_update
    split_ifs <;> rfl
  | protocol_attach c =>
    rfl

theorem run1_fields (min_vol max_vol : ℤ) (ops : List Op1) (s : Device1) :
    (run1 min_vol max_vol ops s).fields = runUpdates (updatesOf ops) s.fields := by
  induction ops generalizing s with
  | nil => rfl
  | cons op rest ih =>
    have h1 : run1 min_vol max_vol (op :: rest) s
        = run1 min_vol max_vol rest (step1 min_vol max_vol op s).1 := rfl
    rw [h1, ih, step1_fields_eq]
    cases op <;> rfl

/-- C7: the device-state fields start as unknown (`None`) in `__init__`, and
after any sequence of operations they equal what the parsed inbound updates
alone produce — no command operation (turn on/off, set volume, volume step,
mute, select source, query, protocol attach/detach) writes any of them. -/
theorem fields_only_from_updates :
    device1Init.fields
      = { power := none, muted := none, volume := none, source := none }
  ∧ ∀ (min_vol max_vol : ℤ) (ops : List Op1) (s : Device1),
      (run1 min_vol max_vol ops s).fields = runUpdates (updatesOf ops) s.fields :=
  ⟨rfl, run1_fields⟩

example : nad_vol_to_internal_vol (-80) (-10) (some (-50)) = 3/7 := by
  norm_num [nad_vol_to_internal_vol]

example : internal_vol_to_nad_vol (-80) (-10) (3/7) = -50 := by
  norm_num [internal_vol_to_nad_vol, pyRound]

example : async_volume_up_arg (-80) (-10) 4 (3/7) = -48 := by
  norm_num [async_volume_up_arg, internal_vol_to_nad_vol, pyRound]

end NADTCP
